import Mathlib

/-!
# School records API: shallow embedding and verification

The repository contains three variants of the same Express/JSON school
records backend (teachers, courses, students, tests):

* `InMem`  : the in-memory variant (`src/index.js`, first part) backed by
  plain JS arrays and hand-rolled incrementing id counters;
* `Cnt`    : the MongoDB variant with numeric ids allocated from a
  `counters` collection (`src/unnamed/part_000`);
* `Obj`    : the MongoDB variant using native `_id` keys
  (`src/index.js`, second part).

Request handlers are embedded as pure functions from a database state and
a request to a response (and, for writes, a new state).  JavaScript
numbers are modelled as rationals, with `none : JNum` standing for a
non-finite result (`NaN`, or an infinity produced by dividing a non-zero
value by zero); all numeric values actually stored by the program are
finite, so entity fields use plain `ℚ`.
-/

/-- A JavaScript number: `some q` is the finite value `q`, `none` is a
non-finite value (`NaN` or `±Infinity`).  `0 / 0` is `NaN`; dividing any
finite value by `0` is non-finite, and every arithmetic operation on a
non-finite operand is non-finite, which matches IEEE behaviour on the
operations this program performs. -/
abbrev JNum := Option ℚ

/-- JS addition (`a + b`). -/
def jadd : JNum → JNum → JNum
  | some a, some b => some (a + b)
  | _, _ => none

/-- JS multiplication (`a * b`). -/
def jmul : JNum → JNum → JNum
  | some a, some b => some (a * b)
  | _, _ => none

/-- JS division (`a / b`): division by zero yields a non-finite value
(`NaN` for `0 / 0`, `±Infinity` otherwise). -/
def jdiv : JNum → JNum → JNum
  | some a, some b => if b = 0 then none else some (a / b)
  | _, _ => none

/-- A JSON-serialisable field value as produced by `res.json`:  `jnull`
is the literal `null`, `jnum q` a finite number, `jnan` a non-finite JS
number (`NaN`/`±Infinity`) sitting in the response object
(`JSON.stringify` renders such a value as `null` on the wire). -/
inductive JsonVal where
  | jnull
  | jnum (q : ℚ)
  | jnan
deriving DecidableEq

/-- View a computed JS number as a JSON response value. -/
def toVal : JNum → JsonVal
  | some q => .jnum q
  | none => .jnan

/-- `Number(s)` on a route path parameter.  Strings of decimal digits
parse to the corresponding (finite, non-negative integer) value; any
other string is treated as not parsing and coerces to `NaN` (`none`).
(JS `Number` also accepts signs, fraction digits, exponents and
whitespace; no route in this development is exercised on such inputs, and
no stored identifier is negative or fractional, so they are outside the
modelled domain.) -/
def jsNumber (s : String) : JNum :=
  if s.length > 0 && s.toList.all Char.isDigit then
    some ((s.toList.foldl (fun a c => a * 10 + (c.toNat - 48)) 0 : ℕ) : ℚ)
  else
    none

/-- The per-test percentage `(t.mark / t.outOf) * 100`, computed in JS
arithmetic exactly as written in the source. -/
def percent (m o : ℚ) : JNum := jmul (jdiv (some m) (some o)) (some 100)

/-- An HTTP response carrying either a JSON payload (`ok`) or a JSON
object with an `error` field (`err`), together with the status code. -/
inductive Resp (α : Type) where
  | ok (status : Nat) (val : α)
  | err (status : Nat) (msg : String)
deriving DecidableEq

/-- Whether a response is an error response. -/
def Resp.isErr {α : Type} : Resp α → Bool
  | .ok _ _ => false
  | .err _ _ => true

/-- Mutate, in place, the first element of a list satisfying `p` — the
effect of looking an object up with `find`/`findOne` and assigning to its
fields. -/
def updateFirst {α : Type} (p : α → Bool) (f : α → α) : List α → List α
  | [] => []
  | x :: xs => if p x then f x :: xs else x :: updateFirst p f xs

namespace InMem

/-- Teacher record of the in-memory variant. -/
structure Teacher where
  id : ℚ
  firstName : String
  lastName : String
  email : String
  department : String
deriving DecidableEq

/-- Course record of the in-memory variant (no `schedule` field is ever
written by this variant). -/
structure Course where
  id : ℚ
  code : String
  name : String
  teacherId : ℚ
  semester : String
  room : String
deriving DecidableEq

/-- Student record of the in-memory variant.  `homeroom` is absent
(`none`) until a PUT supplies it, matching the dynamic JS object. -/
structure Student where
  id : ℚ
  firstName : String
  lastName : String
  grade : ℚ
  studentNumber : String
  homeroom : Option String
deriving DecidableEq

/-- Test record of the in-memory variant. -/
structure Test where
  id : ℚ
  studentId : ℚ
  courseId : ℚ
  testName : String
  date : String
  mark : ℚ
  outOf : ℚ
  weight : ℚ
deriving DecidableEq

/-- The whole mutable state of the in-memory variant: the four arrays
plus the four `next…Id` counters. -/
structure Db where
  teachers : List Teacher
  courses : List Course
  students : List Student
  tests : List Test
  nextTeachersId : ℚ
  nextCoursesId : ℚ
  nextStudentsId : ℚ
  nextTestsId : ℚ
deriving DecidableEq

/-- Request body for teacher create/update: each field is present
(`some`) or absent/undefined (`none`). -/
structure TeacherBody where
  firstName : Option String
  lastName : Option String
  email : Option String
  department : Option String
deriving DecidableEq

/-- Request body for student create/update. -/
structure StudentBody where
  firstName : Option String
  lastName : Option String
  grade : Option ℚ
  studentNumber : Option String
  homeroom : Option String
deriving DecidableEq

/-- Request body for test create/update. -/
structure TestBody where
  studentId : Option ℚ
  courseId : Option ℚ
  testName : Option String
  date : Option String
  mark : Option ℚ
  outOf : Option ℚ
  weight : Option ℚ
deriving DecidableEq

/-- JS falsiness of a possibly-absent string (`!x`): true for
`undefined` and for the empty string. -/
def falsyS : Option String → Bool
  | none => true
  | some s => s.isEmpty

/-- JS falsiness of a possibly-absent number (`!x`): true for
`undefined` and for `0`. -/
def falsyN : Option ℚ → Bool
  | none => true
  | some q => q == 0

/-- `GET /teachers` (src/index.js:42-44).  The `res.json(teachers)` line
is commented out in the source, so the handler sends no response at all,
for every state. -/
def getTeachersList (_db : Db) : Option (List Teacher) := none

/-- `GET /teachers/:id` (src/index.js:46-55).  When the teacher is
missing a 404 error is sent; when it is found, the `res.json(teacher)`
line is commented out and no response is sent (`none`). -/
def getTeacher (db : Db) (idStr : String) : Option (Resp Teacher) :=
  let i := jsNumber idStr
  match db.teachers.find? (fun t => some t.id == i) with
  | none => some (.err 404 "Teacher not found")
  | some _ => none

/-- `POST /teachers` (src/index.js:57-72). -/
def postTeacher (db : Db) (b : TeacherBody) : Resp Teacher × Db :=
  if falsyS b.firstName || falsyS b.lastName || falsyS b.email || falsyS b.department then
    (.err 400 "Missing required fields", db)
  else
    let t : Teacher :=
      { id := db.nextTeachersId
        firstName := b.firstName.getD ""
        lastName := b.lastName.getD ""
        email := b.email.getD ""
        department := b.department.getD "" }
    (.ok 201 t, { db with teachers := db.teachers ++ [t], nextTeachersId := db.nextTeachersId + 1 })

/-- `PUT /teachers/:id` (src/index.js:74-95): look the teacher up first
(404), then reject when all four body fields are falsy (400), then
overwrite each field that is not `undefined`. -/
def putTeacher (db : Db) (idStr : String) (b : TeacherBody) : Resp Teacher × Db :=
  let i := jsNumber idStr
  match db.teachers.find? (fun t => some t.id == i) with
  | none => (.err 404 "Teacher not found", db)
  | some t =>
    if falsyS b.firstName && falsyS b.lastName && falsyS b.email && falsyS b.department then
      (.err 400 "No fields provided to update", db)
    else
      let t' : Teacher :=
        { t with
          firstName := b.firstName.getD t.firstName
          lastName := b.lastName.getD t.lastName
          email := b.email.getD t.email
          department := b.department.getD t.department }
      (.ok 200 t', { db with teachers := updateFirst (fun x => some x.id == i) (fun _ => t') db.teachers })

/-- `DELETE /teachers/:id` (src/index.js:98-112).  The dependent-course
check is missing (the source holds only a `TODO: Optional Check (?)`
comment); the teacher is removed unconditionally via `splice`. -/
def deleteTeacher (db : Db) (idStr : String) : Resp Teacher × Db :=
  let i := jsNumber idStr
  match db.teachers.find? (fun t => some t.id == i) with
  | none => (.err 404 "Teacher not found", db)
  | some t => (.ok 200 t, { db with teachers := db.teachers.eraseP (fun x => some x.id == i) })

/-- `PUT /students/:id` (src/index.js:254-278).  The emptiness check
tests falsiness of `firstName`, `lastName`, `grade`, `studentNumber`
(`homeroom` is not part of the check but is applied when present). -/
def putStudent (db : Db) (idStr : String) (b : StudentBody) : Resp Student × Db :=
  let i := jsNumber idStr
  match db.students.find? (fun x => some x.id == i) with
  | none => (.err 404 "Student not found", db)
  | some st =>
    if falsyS b.firstName && falsyS b.lastName && falsyN b.grade && falsyS b.studentNumber then
      (.err 400 "No fields provided to update", db)
    else
      let st' : Student :=
        { st with
          firstName := b.firstName.getD st.firstName
          lastName := b.lastName.getD st.lastName
          grade := b.grade.getD st.grade
          studentNumber := b.studentNumber.getD st.studentNumber
          homeroom := b.homeroom.or st.homeroom }
      (.ok 200 st', { db with students := updateFirst (fun x => some x.id == i) (fun _ => st') db.students })

/-- `POST /tests` (src/index.js:315-348): presence checks (falsiness for
`studentId`/`courseId`/`testName`/`date`, strict `undefined` checks for
`mark`/`outOf`/`weight`), then the `studentId` existence check, then the
`courseId` existence check, then the write. -/
def postTest (db : Db) (b : TestBody) : Resp Test × Db :=
  if falsyN b.studentId || falsyN b.courseId || falsyS b.testName || falsyS b.date
      || b.mark.isNone || b.outOf.isNone || b.weight.isNone then
    (.err 400 "Missing required fields", db)
  else
    let sid := b.studentId.getD 0
    let cid := b.courseId.getD 0
    if !(db.students.any (fun s => s.id == sid)) then
      (.err 400 "studentId is invalid!", db)
    else if !(db.courses.any (fun c => c.id == cid)) then
      (.err 400 "courseId is invalid!", db)
    else
      let t : Test :=
        { id := db.nextTestsId
          studentId := sid
          courseId := cid
          testName := b.testName.getD ""
          date := b.date.getD ""
          mark := b.mark.getD 0
          outOf := b.outOf.getD 0
          weight := b.weight.getD 0 }
      (.ok 201 t, { db with tests := db.tests ++ [t], nextTestsId := db.nextTestsId + 1 })

/-- Aggregation response of the in-memory variant: the echoed course id
(the `Number`-coerced path value), the test count, and the average. -/
structure AvgResp where
  refId : JNum
  testCount : Nat
  average : JsonVal
deriving DecidableEq

/-- `GET /courses/:id/average` (src/index.js:413-430).  There is no
zero-test guard: with no matching tests the reduce yields `0` and the
division is `0 / 0`, a `NaN` average. -/
def courseAverage (db : Db) (idStr : String) : Resp AvgResp :=
  let i := jsNumber idStr
  match db.courses.find? (fun c => some c.id == i) with
  | none => .err 404 "Course not found!"
  | some _ =>
    let testCourses := db.tests.filter (fun t => some t.courseId == i)
    let ps := testCourses.map (fun t => percent t.mark t.outOf)
    let courseavg := jdiv (ps.foldl jadd (some 0)) (some (ps.length : ℚ))
    .ok 200 ⟨i, testCourses.length, toVal courseavg⟩

end InMem

namespace Cnt

/-- Teacher record of the counter variant. -/
structure Teacher where
  id : ℚ
  firstName : String
  lastName : String
  email : String
  department : String
deriving DecidableEq

/-- Course record of the counter variant (`schedule` defaults to ""). -/
structure Course where
  id : ℚ
  code : String
  name : String
  teacherId : ℚ
  semester : String
  room : String
  schedule : String
deriving DecidableEq

/-- Student record of the counter variant (`homeroom` defaults to ""). -/
structure Student where
  id : ℚ
  firstName : String
  lastName : String
  grade : ℚ
  studentNumber : String
  homeroom : String
deriving DecidableEq

/-- Test record of the counter variant. -/
structure Test where
  id : ℚ
  studentId : ℚ
  courseId : ℚ
  testName : String
  date : String
  mark : ℚ
  outOf : ℚ
  weight : ℚ
deriving DecidableEq

/-- The `counters` collection: one `(sequenceName, seq)` document per
entity kind. -/
abbrev Counters := List (String × ℚ)

/-- Current `seq` of a counter document; an absent document counts as
`0` (the schema default that `upsert: true` would materialise). -/
def counterGet : Counters → String → ℚ
  | [], _ => 0
  | p :: ps, n => if p.1 = n then p.2 else counterGet ps n

/-- Store a new `seq` for a counter document, inserting it when absent
(the effect of `findByIdAndUpdate(..., { upsert: true })`). -/
def counterSet (n : String) (v : ℚ) : Counters → Counters
  | [] => [(n, v)]
  | p :: ps => if p.1 = n then (p.1, v) :: ps else p :: counterSet n v ps

/-- `getNextId` (src/unnamed/part_000:32-39): atomically increment the
named counter and return the post-increment value (`new: true`). -/
def getNextId (n : String) (c : Counters) : ℚ × Counters :=
  (counterGet c n + 1, counterSet n (counterGet c n + 1) c)

/-- The state of the counter variant: the four collections plus the
`counters` collection. -/
structure Db where
  teachers : List Teacher
  courses : List Course
  students : List Student
  tests : List Test
  counters : Counters
deriving DecidableEq

/-- The relation "sorted by `id` ascending" used by
`find().sort({ id: 1 })`. -/
def idLe (a b : Teacher) : Prop := a.id ≤ b.id

instance : DecidableRel idLe := fun a b => inferInstanceAs (Decidable (a.id ≤ b.id))

instance : IsTotal Teacher idLe := ⟨fun a b => le_total a.id b.id⟩

instance : IsTrans Teacher idLe := ⟨fun _ _ _ h1 h2 => le_trans h1 h2⟩

/-- `GET /teachers` (src/unnamed/part_000:101-104):
`Teacher.find().sort({ id: 1 })`. -/
def listTeachers (db : Db) : List Teacher := db.teachers.insertionSort idLe

/-- `GET /teachers/:id` (src/unnamed/part_000:106-111). -/
def getTeacher (db : Db) (idStr : String) : Resp Teacher :=
  let i := jsNumber idStr
  match db.teachers.find? (fun t => some t.id == i) with
  | none => .err 404 "Teacher not found"
  | some t => .ok 200 t

/-- `PUT /teachers/:id` (src/unnamed/part_000:134-157): reject when all
four body fields are `undefined` (before the lookup), then 404, then
overwrite each supplied field. -/
def putTeacher (db : Db) (idStr : String) (b : InMem.TeacherBody) : Resp Teacher × Db :=
  let i := jsNumber idStr
  if b.firstName.isNone && b.lastName.isNone && b.email.isNone && b.department.isNone then
    (.err 400 "No fields provided to update", db)
  else
    match db.teachers.find? (fun t => some t.id == i) with
    | none => (.err 404 "Teacher not found", db)
    | some t =>
      let t' : Teacher :=
        { t with
          firstName := b.firstName.getD t.firstName
          lastName := b.lastName.getD t.lastName
          email := b.email.getD t.email
          department := b.department.getD t.department }
      (.ok 200 t', { db with teachers := updateFirst (fun x => some x.id == i) (fun _ => t') db.teachers })

/-- `DELETE /teachers/:id` (src/unnamed/part_000:159-174): refuse with a
Conflict error when any course references the teacher, otherwise
`findOneAndDelete`. -/
def deleteTeacher (db : Db) (idStr : String) : Resp Teacher × Db :=
  let i := jsNumber idStr
  if db.courses.any (fun c => some c.teacherId == i) then
    (.err 400 "Cannot delete teacher who is assigned to courses. Update/delete courses first.", db)
  else
    match db.teachers.find? (fun t => some t.id == i) with
    | none => (.err 404 "Teacher not found", db)
    | some t => (.ok 200 t, { db with teachers := db.teachers.eraseP (fun x => some x.id == i) })

/-- Request body for student update in the counter variant. -/
abbrev StudentBody := InMem.StudentBody

/-- `PUT /students/:id` (src/unnamed/part_000:300-325): reject when all
five body fields (including `homeroom`) are `undefined`, then 404, then
overwrite each supplied field (`grade` through `Number`, identity on a
numeric body value). -/
def putStudent (db : Db) (idStr : String) (b : StudentBody) : Resp Student × Db :=
  let i := jsNumber idStr
  if b.firstName.isNone && b.lastName.isNone && b.grade.isNone
      && b.studentNumber.isNone && b.homeroom.isNone then
    (.err 400 "No fields provided to update", db)
  else
    match db.students.find? (fun x => some x.id == i) with
    | none => (.err 404 "Student not found", db)
    | some st =>
      let st' : Student :=
        { st with
          firstName := b.firstName.getD st.firstName
          lastName := b.lastName.getD st.lastName
          grade := b.grade.getD st.grade
          studentNumber := b.studentNumber.getD st.studentNumber
          homeroom := b.homeroom.getD st.homeroom }
      (.ok 200 st', { db with students := updateFirst (fun x => some x.id == i) (fun _ => st') db.students })

/-- Request body for test create in the counter variant. -/
abbrev TestBody := InMem.TestBody

/-- `POST /tests` (src/unnamed/part_000:358-391): strict `undefined`
presence checks (falsiness only for `testName`/`date`), then the
`studentId` existence check, then the `courseId` existence check, then
the write with an id from `getNextId("tests")`. -/
def postTest (db : Db) (b : TestBody) : Resp Test × Db :=
  if b.studentId.isNone || b.courseId.isNone || InMem.falsyS b.testName || InMem.falsyS b.date
      || b.mark.isNone || b.outOf.isNone || b.weight.isNone then
    (.err 400 "Missing required fields", db)
  else
    let sid := b.studentId.getD 0
    let cid := b.courseId.getD 0
    if !(db.students.any (fun s => s.id == sid)) then
      (.err 400 "studentId is invalid!", db)
    else if !(db.courses.any (fun c => c.id == cid)) then
      (.err 400 "courseId is invalid!", db)
    else
      let r := getNextId "tests" db.counters
      let t : Test :=
        { id := r.1
          studentId := sid
          courseId := cid
          testName := b.testName.getD ""
          date := b.date.getD ""
          mark := b.mark.getD 0
          outOf := b.outOf.getD 0
          weight := b.weight.getD 0 }
      (.ok 201 t, { db with tests := db.tests ++ [t], counters := r.2 })

/-- Aggregation response of the counter variant. -/
structure AvgResp where
  refId : JNum
  testCount : Nat
  average : JsonVal
deriving DecidableEq

/-- `GET /students/:id/average` (src/unnamed/part_000:466-481): 404 when
the student does not exist; `{ testCount: 0, average: null }` when no
test matches; otherwise the mean of the per-test percentages. -/
def studentAverage (db : Db) (idStr : String) : Resp AvgResp :=
  let i := jsNumber idStr
  match db.students.find? (fun s => some s.id == i) with
  | none => .err 404 "Student not found"
  | some _ =>
    let studentTests := db.tests.filter (fun t => some t.studentId == i)
    if studentTests.isEmpty then
      .ok 200 ⟨i, 0, .jnull⟩
    else
      let ps := studentTests.map (fun t => percent t.mark t.outOf)
      .ok 200 ⟨i, studentTests.length, toVal (jdiv (ps.foldl jadd (some 0)) (some (ps.length : ℚ)))⟩

/-- `GET /courses/:id/average` (src/unnamed/part_000:484-499): same
shape as the student average, keyed by `courseId`. -/
def courseAverage (db : Db) (idStr : String) : Resp AvgResp :=
  let i := jsNumber idStr
  match db.courses.find? (fun c => some c.id == i) with
  | none => .err 404 "Course not found"
  | some _ =>
    let courseTests := db.tests.filter (fun t => some t.courseId == i)
    if courseTests.isEmpty then
      .ok 200 ⟨i, 0, .jnull⟩
    else
      let ps := courseTests.map (fun t => percent t.mark t.outOf)
      .ok 200 ⟨i, courseTests.length, toVal (jdiv (ps.foldl jadd (some 0)) (some (ps.length : ℚ)))⟩

end Cnt

namespace Obj

/-- Student record of the native-`_id` variant; `oid` is the store
generated `_id` key (generated timestamps are not modelled). -/
structure Student where
  oid : String
  firstName : String
  lastName : String
  grade : ℚ
  studentNumber : String
  homeroom : String
deriving DecidableEq

/-- Course record of the native-`_id` variant. -/
structure Course where
  oid : String
  code : String
  name : String
  teacherId : String
  semester : String
  room : String
  schedule : String
deriving DecidableEq

/-- Test record of the native-`_id` variant. -/
structure Test where
  oid : String
  studentId : String
  courseId : String
  testName : String
  date : String
  mark : ℚ
  outOf : ℚ
  weight : ℚ
deriving DecidableEq

/-- State of the native-`_id` variant.  `freshTestOid` is the next `_id`
the store would assign on a test insert (native-key allocation is
performed by the persistence layer, an external collaborator, and is
modelled as an oracle value carried in the state). -/
structure Db where
  students : List Student
  courses : List Course
  tests : List Test
  freshTestOid : String
deriving DecidableEq

/-- `mongoose.isValidObjectId` (library check, external collaborator):
accepts 24-character hexadecimal strings, the only castable form this
development exercises. -/
def isValidObjectId (s : String) : Bool :=
  s.length == 24 && s.toList.all (fun c =>
    c.isDigit || (97 ≤ c.toNat && c.toNat ≤ 102) || (65 ≤ c.toNat && c.toNat ≤ 70))

/-- Aggregation response of the native-`_id` variant. -/
structure AvgResp where
  refId : String
  testCount : Nat
  average : JsonVal
deriving DecidableEq

/-- `GET /courses/:id/average` (src/index.js:1056-1075): 400 on a
malformed `_id`, 404 when the course does not exist, the explicit
`{ testCount: 0, average: null }` guard when no test matches, otherwise
the mean of the per-test percentages. -/
def courseAverage (db : Db) (i : String) : Resp AvgResp :=
  if !isValidObjectId i then .err 400 "Invalid course _id"
  else
    match db.courses.find? (fun c => c.oid == i) with
    | none => .err 404 "Course not found"
    | some _ =>
      let courseTests := db.tests.filter (fun t => t.courseId == i)
      if courseTests.isEmpty then
        .ok 200 ⟨i, 0, .jnull⟩
      else
        let ps := courseTests.map (fun t => percent t.mark t.outOf)
        .ok 200 ⟨i, courseTests.length, toVal (jdiv (ps.foldl jadd (some 0)) (some (courseTests.length : ℚ)))⟩

/-- Request body for test create in the native-`_id` variant: reference
fields are `_id` strings. -/
structure TestBody where
  studentId : Option String
  courseId : Option String
  testName : Option String
  date : Option String
  mark : Option ℚ
  outOf : Option ℚ
  weight : Option ℚ
deriving DecidableEq

/-- `POST /tests` (src/index.js:884-922): presence checks, a combined
format check on both reference ids, then the `studentId` existence check
reported before the `courseId` one (the two `exists` queries run under
`Promise.all`, but the failure report order is fixed: student first). -/
def postTest (db : Db) (b : TestBody) : Resp Test × Db :=
  if InMem.falsyS b.studentId || InMem.falsyS b.courseId || InMem.falsyS b.testName
      || InMem.falsyS b.date || b.mark.isNone || b.outOf.isNone || b.weight.isNone then
    (.err 400 "Missing required fields", db)
  else
    let sid := b.studentId.getD ""
    let cid := b.courseId.getD ""
    if !isValidObjectId sid || !isValidObjectId cid then
      (.err 400 "Invalid studentId or courseId", db)
    else if !(db.students.any (fun s => s.oid == sid)) then
      (.err 400 "studentId does not exist", db)
    else if !(db.courses.any (fun c => c.oid == cid)) then
      (.err 400 "courseId does not exist", db)
    else
      let t : Test :=
        { oid := db.freshTestOid
          studentId := sid
          courseId := cid
          testName := b.testName.getD ""
          date := b.date.getD ""
          mark := b.mark.getD 0
          outOf := b.outOf.getD 0
          weight := b.weight.getD 0 }
      (.ok 201 t, { db with tests := db.tests ++ [t] })

end Obj

/-- Spec-side definition (§4.5): the unweighted arithmetic mean of
`100 * mark / outOf` over a list of tests of the counter variant. -/
def specMeanCnt (ts : List Cnt.Test) : ℚ :=
  (ts.map (fun t => 100 * t.mark / t.outOf)).sum / (ts.length : ℚ)

/-- Spec-side definition (§4.5): the unweighted arithmetic mean of
`100 * mark / outOf` over a list of tests of the native-key variant. -/
def specMeanObj (ts : List Obj.Test) : ℚ :=
  (ts.map (fun t => 100 * t.mark / t.outOf)).sum / (ts.length : ℚ)

namespace InMem

/-- Spec-side merge (§4.2, §8): the record obtained from `st` by
overwriting each field present in the update body with the supplied
value and keeping every absent field at its prior value (`homeroom`,
absent until first written, becomes present when supplied). -/
def mergeStudent (st : Student) (b : StudentBody) : Student :=
  { st with
    firstName := b.firstName.getD st.firstName
    lastName := b.lastName.getD st.lastName
    grade := b.grade.getD st.grade
    studentNumber := b.studentNumber.getD st.studentNumber
    homeroom := b.homeroom.or st.homeroom }

/-- One request against the teachers collection of the in-memory
variant. -/
inductive TeacherOp where
  | create (b : TeacherBody)
  | update (idStr : String) (b : TeacherBody)
  | del (idStr : String)

/-- The state reached after handling one teachers request. -/
def teacherStep (db : Db) : TeacherOp → Db
  | .create b => (postTeacher db b).2
  | .update s b => (putTeacher db s b).2
  | .del s => (deleteTeacher db s).2

/-- The state reached after handling a sequence of teachers requests. -/
def teacherRun (db : Db) : List TeacherOp → Db
  | [] => db
  | op :: ops => teacherRun (teacherStep db op) ops

/-- The identifiers currently stored in the teachers collection. -/
def teacherIds (db : Db) : List ℚ := db.teachers.map (fun t => t.id)

/-- The identifier-allocation invariant of the in-memory variant: every
stored teacher id is below the `nextTeachersId` counter, and the stored
ids are pairwise distinct.  The start-up initialisation
`nextTeachersId = max(id) + 1` (src/index.js:29) establishes the bound
for any loaded file. -/
def TeacherInv (db : Db) : Prop :=
  (∀ i ∈ teacherIds db, i < db.nextTeachersId) ∧ (teacherIds db).Pairwise (fun a b => a ≠ b)

instance (db : Db) : Decidable (TeacherInv db) := by
  unfold TeacherInv; infer_instance

end InMem

/-- Spec-side merge (§4.2, §8) for the counter variant's students. -/
def Cnt.mergeStudent (st : Cnt.Student) (b : Cnt.StudentBody) : Cnt.Student :=
  { st with
    firstName := b.firstName.getD st.firstName
    lastName := b.lastName.getD st.lastName
    grade := b.grade.getD st.grade
    studentNumber := b.studentNumber.getD st.studentNumber
    homeroom := b.homeroom.getD st.homeroom }

/-! ## Helper lemmas -/

theorem find_pred_false {α : Type} (l : List α) : l.find? (fun _ => false) = none := by
  induction l with
  | nil => rfl
  | cons x xs ih => simp [List.find?, ih]

theorem any_pred_false {α : Type} (l : List α) : l.any (fun _ => false) = false := by
  induction l with
  | nil => rfl
  | cons x xs ih => simp [List.any, ih]

theorem updateFirst_map {α β : Type} (p : α → Bool) (f : α → α) (g : α → β)
    (h : ∀ a, p a = true → g (f a) = g a) (l : List α) :
    (updateFirst p f l).map g = l.map g := by
  induction l with
  | nil => rfl
  | cons x xs ih =>
    by_cases hx : p x
    · simp [updateFirst, hx, h x hx]
    · simp [updateFirst, hx, ih]

theorem updateFirst_length {α : Type} (p : α → Bool) (f : α → α) (l : List α) :
    (updateFirst p f l).length = l.length := by
  induction l with
  | nil => rfl
  | cons x xs ih =>
    by_cases hx : p x <;> simp [updateFirst, hx, ih]

theorem updateFirst_const_mem {α : Type} (p : α → Bool) (v : α) (l : List α) :
    ∀ x ∈ updateFirst p (fun _ => v) l, x = v ∨ x ∈ l := by
  induction l with
  | nil => intro x hx; cases hx
  | cons y ys ih =>
    intro x hx
    by_cases hy : p y
    · simp only [updateFirst, if_pos hy] at hx
      rcases List.mem_cons.mp hx with h1 | h1
      · exact Or.inl h1
      · exact Or.inr (List.mem_cons_of_mem y h1)
    · simp only [updateFirst, if_neg hy] at hx
      rcases List.mem_cons.mp hx with h1 | h1
      · exact Or.inr (h1 ▸ List.mem_cons_self y ys)
      · rcases ih x h1 with h2 | h2
        · exact Or.inl h2
        · exact Or.inr (List.mem_cons_of_mem y h2)

theorem foldl_jadd_map {α : Type} (mk od : α → ℚ) (ts : List α)
    (h : ∀ t ∈ ts, od t ≠ 0) : ∀ a : ℚ,
    (ts.map (fun t => percent (mk t) (od t))).foldl jadd (some a)
      = some (a + (ts.map (fun t => 100 * mk t / od t)).sum) := by
  induction ts with
  | nil => intro a; simp [jadd]
  | cons t ts ih =>
    intro a
    have ho : od t ≠ 0 := h t (List.mem_cons_self t ts)
    have hp : percent (mk t) (od t) = some (mk t / od t * 100) := by
      simp [percent, jdiv, jmul, ho]
    have ih' := ih (fun x hx => h x (List.mem_cons_of_mem t hx)) (a + mk t / od t * 100)
    simp only [List.map_cons, List.foldl_cons, hp, jadd, List.sum_cons, ih']
    congr 1
    ring

theorem filter_map_pres {α : Type} (g : α → α) (p : α → Bool)
    (hp : ∀ a, p (g a) = p a) (l : List α) :
    (l.map g).filter p = (l.filter p).map g := by
  induction l with
  | nil => rfl
  | cons x xs ih =>
    by_cases hx : p x
    · simp [List.filter, hp, hx, ih]
    · simp [List.filter, hp, hx, ih]

theorem postTestA_no_write_or_ok (db : InMem.Db) (b : InMem.TestBody) :
    (InMem.postTest db b).2 = db ∨ (InMem.postTest db b).1.isErr = false := by
  simp only [InMem.postTest]
  split
  · exact Or.inl rfl
  · split
    · exact Or.inl rfl
    · split
      · exact Or.inl rfl
      · exact Or.inr rfl

theorem postTestB_no_write_or_ok (db : Cnt.Db) (b : Cnt.TestBody) :
    (Cnt.postTest db b).2 = db ∨ (Cnt.postTest db b).1.isErr = false := by
  simp only [Cnt.postTest]
  split
  · exact Or.inl rfl
  · split
    · exact Or.inl rfl
    · split
      · exact Or.inl rfl
      · exact Or.inr rfl

/-! ## Claim theorems -/

/-- C1 (code bug): the aggregation endpoints are claimed never to produce
`NaN` on the zero-test case.  The two MongoDB variants implement the
explicit `testCount: 0, average: null` guard, but the in-memory variant's
`GET /courses/:id/average` has no such guard: with an existing course and
zero matching tests it computes `0 / 0`, so the handler's `average` value
is `NaN` (`.jnan`, which `JSON.stringify` then renders as `null` on the
wire), not the guarded `null` of the claim.  This theorem evaluates both
the in-memory handler and the guarded counter-variant handler at the
failing input. -/
theorem c1_zero_test_average_nan_bug :
    InMem.courseAverage
      { teachers := [], courses := [⟨1, "MTH1A", "Math", 1, "S1", "101"⟩],
        students := [], tests := [],
        nextTeachersId := 1, nextCoursesId := 2, nextStudentsId := 1, nextTestsId := 1 } "1"
      = .ok 200 ⟨some 1, 0, .jnan⟩ ∧
    Cnt.courseAverage
      { teachers := [], courses := [⟨1, "MTH1A", "Math", 1, "S1", "101", ""⟩],
        students := [], tests := [], counters := [] } "1"
      = .ok 200 ⟨some 1, 0, .jnull⟩ := by
  constructor <;> rfl

/-- C2 (code bug): a teacher referenced by a course is claimed to be
protected from deletion by a Conflict error.  The counter variant
enforces this, but the in-memory variant's `DELETE /teachers/:id` has
only a `TODO: Optional Check (?)` comment where the dependent-course
check should be: deleting teacher 1, referenced by course 1, succeeds
with 200 and removes the teacher.  This theorem evaluates both variants
at the failing input. -/
theorem c2_teacher_delete_guard_missing :
    InMem.deleteTeacher
      { teachers := [⟨1, "Ada", "Lovelace", "ada@school", "Math"⟩],
        courses := [⟨1, "MTH1A", "Math", 1, "S1", "101"⟩],
        students := [], tests := [],
        nextTeachersId := 2, nextCoursesId := 2, nextStudentsId := 1, nextTestsId := 1 } "1"
      = (.ok 200 ⟨1, "Ada", "Lovelace", "ada@school", "Math"⟩,
         { teachers := [],
           courses := [⟨1, "MTH1A", "Math", 1, "S1", "101"⟩],
           students := [], tests := [],
           nextTeachersId := 2, nextCoursesId := 2, nextStudentsId := 1, nextTestsId := 1 }) ∧
    Cnt.deleteTeacher
      { teachers := [⟨1, "Ada", "Lovelace", "ada@school", "Math"⟩],
        courses := [⟨1, "MTH1A", "Math", 1, "S1", "101", ""⟩],
        students := [], tests := [], counters := [("teachers", 1), ("courses", 1)] } "1"
      = (.err 400 "Cannot delete teacher who is assigned to courses. Update/delete courses first.",
         { teachers := [⟨1, "Ada", "Lovelace", "ada@school", "Math"⟩],
           courses := [⟨1, "MTH1A", "Math", 1, "S1", "101", ""⟩],
           students := [], tests := [], counters := [("teachers", 1), ("courses", 1)] }) := by
  constructor <;> rfl

/-- C3 (code bug): `list()` is claimed to return all stored entities of
the kind in a stable order.  In the counter variant `GET /teachers`
returns exactly the stored teachers sorted by id ascending,
deterministically in the stored data.  In the in-memory variant the
`res.json(teachers)` line of `GET /teachers` is commented out, so the
handler sends no response at all, for every state — it returns nothing,
let alone the stored teachers. -/
theorem c3_list_stable_order :
    (∀ db : InMem.Db, InMem.getTeachersList db = none) ∧
    (∀ db : Cnt.Db, (Cnt.listTeachers db).Perm db.teachers
      ∧ (Cnt.listTeachers db).Sorted Cnt.idLe) ∧
    (∀ db db' : Cnt.Db, db.teachers = db'.teachers →
      Cnt.listTeachers db = Cnt.listTeachers db') := by
  refine ⟨fun _ => rfl, fun db => ⟨List.perm_insertionSort _ _, List.sorted_insertionSort _ _⟩,
    fun db db' h => ?_⟩
  simp [Cnt.listTeachers, h]

/-- C3 witness: the determinism clause applied at a concrete pair of
states sharing the same teachers collection. -/
theorem c3_list_stable_order_witness :
    InMem.getTeachersList
      { teachers := [⟨1, "Ada", "Lovelace", "ada@school", "Math"⟩],
        courses := [], students := [], tests := [],
        nextTeachersId := 2, nextCoursesId := 1, nextStudentsId := 1, nextTestsId := 1 } = none ∧
    Cnt.listTeachers
      { teachers := [⟨1, "Ada", "Lovelace", "ada@school", "Math"⟩],
        courses := [], students := [], tests := [], counters := [] }
      = Cnt.listTeachers
        { teachers := [⟨1, "Ada", "Lovelace", "ada@school", "Math"⟩],
          courses := [], students := [], tests := [], counters := [("courses", 7)] } :=
  ⟨c3_list_stable_order.1 _, c3_list_stable_order.2.2 _ _ rfl⟩

/-- C5 (confirmed): an update call whose field set is empty (every body
field `undefined`) fails with the Validation error
"No fields provided to update" and leaves the state unchanged.  In the
in-memory variant the emptiness check sits after the 404 lookup, so the
statement assumes the record exists; in the counter variant the check
precedes the lookup and holds unconditionally. -/
theorem c5_empty_update_rejected (dbA : InMem.Db) (s : String) (t : InMem.Teacher)
    (hf : dbA.teachers.find? (fun x => some x.id == jsNumber s) = some t) :
    InMem.putTeacher dbA s ⟨none, none, none, none⟩
      = (.err 400 "No fields provided to update", dbA) ∧
    ∀ (dbB : Cnt.Db) (sB : String),
      Cnt.putTeacher dbB sB ⟨none, none, none, none⟩
        = (.err 400 "No fields provided to update", dbB) := by
  constructor
  · simp [InMem.putTeacher, hf, InMem.falsyS]
  · intro dbB sB
    simp [Cnt.putTeacher]

/-- C5 witness: the empty update applied at a concrete state holding
teacher 1. -/
theorem c5_empty_update_rejected_witness :
    InMem.putTeacher
      { teachers := [⟨1, "Ada", "Lovelace", "ada@school", "Math"⟩],
        courses := [], students := [], tests := [],
        nextTeachersId := 2, nextCoursesId := 1, nextStudentsId := 1, nextTestsId := 1 }
      "1" ⟨none, none, none, none⟩
      = (.err 400 "No fields provided to update",
         { teachers := [⟨1, "Ada", "Lovelace", "ada@school", "Math"⟩],
           courses := [], students := [], tests := [],
           nextTeachersId := 2, nextCoursesId := 1, nextStudentsId := 1, nextTestsId := 1 }) :=
  (c5_empty_update_rejected _ "1" ⟨1, "Ada", "Lovelace", "ada@school", "Math"⟩ (by rfl)).1

/-- C10 (confirmed): in the counter-id variants, a path identifier that
does not parse as a number coerces through `Number` to `NaN`
(`jsNumber s = none`), which matches no stored record, so getById,
update and delete all answer 404 NotFound and leave the state untouched
— never a distinct malformed-identifier error and never a crash.  (For
the counter variant's update, the body must name at least one field,
since its empty-update validation runs before the lookup.) -/
theorem c10_malformed_id_not_found (s : String) (h : jsNumber s = none)
    (dbA : InMem.Db) (bA : InMem.TeacherBody) (dbB : Cnt.Db) (bB : InMem.TeacherBody)
    (hbB : (bB.firstName.isNone && bB.lastName.isNone && bB.email.isNone
            && bB.department.isNone) = false) :
    InMem.getTeacher dbA s = some (.err 404 "Teacher not found") ∧
    InMem.putTeacher dbA s bA = (.err 404 "Teacher not found", dbA) ∧
    InMem.deleteTeacher dbA s = (.err 404 "Teacher not found", dbA) ∧
    Cnt.getTeacher dbB s = .err 404 "Teacher not found" ∧
    Cnt.putTeacher dbB s bB = (.err 404 "Teacher not found", dbB) ∧
    Cnt.deleteTeacher dbB s = (.err 404 "Teacher not found", dbB) := by
  refine ⟨?_, ?_, ?_, ?_, ?_, ?_⟩
  · simp [InMem.getTeacher, h, find_pred_false]
  · simp [InMem.putTeacher, h, find_pred_false]
  · simp [InMem.deleteTeacher, h, find_pred_false]
  · simp [Cnt.getTeacher, h, find_pred_false]
  · simp [Cnt.putTeacher, h, find_pred_false, hbB]
  · simp [Cnt.deleteTeacher, h, find_pred_false, any_pred_false]

/-- C10 witness: the non-numeric path id "abc" against concrete states. -/
theorem c10_malformed_id_not_found_witness :
    jsNumber "abc" = none ∧
    InMem.putTeacher
      { teachers := [⟨1, "Ada", "Lovelace", "ada@school", "Math"⟩],
        courses := [], students := [], tests := [],
        nextTeachersId := 2, nextCoursesId := 1, nextStudentsId := 1, nextTestsId := 1 }
      "abc" ⟨some "Grace", none, none, none⟩
      = (.err 404 "Teacher not found",
         { teachers := [⟨1, "Ada", "Lovelace", "ada@school", "Math"⟩],
           courses := [], students := [], tests := [],
           nextTeachersId := 2, nextCoursesId := 1, nextStudentsId := 1, nextTestsId := 1 }) ∧
    Cnt.deleteTeacher
      { teachers := [⟨1, "Ada", "Lovelace", "ada@school", "Math"⟩],
        courses := [], students := [], tests := [], counters := [] } "abc"
      = (.err 404 "Teacher not found",
         { teachers := [⟨1, "Ada", "Lovelace", "ada@school", "Math"⟩],
           courses := [], students := [], tests := [], counters := [] }) := by
  refine ⟨by rfl, ?_, ?_⟩
  · exact (c10_malformed_id_not_found "abc" (by rfl) _ ⟨some "Grace", none, none, none⟩
      { teachers := [], courses := [], students := [], tests := [], counters := [] }
      ⟨some "x", none, none, none⟩ (by rfl)).2.1
  · exact (c10_malformed_id_not_found "abc" (by rfl)
      { teachers := [], courses := [], students := [], tests := [],
        nextTeachersId := 1, nextCoursesId := 1, nextStudentsId := 1, nextTestsId := 1 }
      ⟨none, none, none, none⟩ _ ⟨some "x", none, none, none⟩ (by rfl)).2.2.2.2.2

/-- C7 (confirmed): a `POST /tests` that fails validation — a missing
required field or a non-existent referenced `studentId`/`courseId` —
returns an error having performed no write: the state (every collection
and every id counter) is exactly the pre-call state, in both the
in-memory and the counter variant. -/
theorem c7_create_fail_no_write (dbA : InMem.Db) (bA : InMem.TestBody)
    (dbB : Cnt.Db) (bB : Cnt.TestBody)
    (hA : (InMem.postTest dbA bA).1.isErr = true)
    (hB : (Cnt.postTest dbB bB).1.isErr = true) :
    (InMem.postTest dbA bA).2 = dbA ∧ (Cnt.postTest dbB bB).2 = dbB := by
  constructor
  · rcases postTestA_no_write_or_ok dbA bA with hcase | hcase
    · exact hcase
    · rw [hcase] at hA; exact (Bool.false_ne_true hA).elim
  · rcases postTestB_no_write_or_ok dbB bB with hcase | hcase
    · exact hcase
    · rw [hcase] at hB; exact (Bool.false_ne_true hB).elim

/-- C7 witness: creating a test that references student 99, absent from
the store, fails and writes nothing. -/
theorem c7_create_fail_no_write_witness :
    (InMem.postTest
      { teachers := [], courses := [], students := [], tests := [],
        nextTeachersId := 1, nextCoursesId := 1, nextStudentsId := 1, nextTestsId := 1 }
      ⟨some 99, some 1, some "Quiz", some "2024-01-01", some 8, some 10, some 1⟩).2
      = { teachers := [], courses := [], students := [], tests := [],
          nextTeachersId := 1, nextCoursesId := 1, nextStudentsId := 1, nextTestsId := 1 } ∧
    (Cnt.postTest
      { teachers := [], courses := [], students := [], tests := [], counters := [] }
      ⟨some 99, some 1, some "Quiz", some "2024-01-01", some 8, some 10, some 1⟩).2
      = { teachers := [], courses := [], students := [], tests := [], counters := [] } :=
  c7_create_fail_no_write _ _ _ _ (by rfl) (by rfl)

/-- C8 (confirmed): on a test create in which both the referenced
student and course are absent from the store (and, for the native-key
variant, both ids are well-formed), every variant reports the
`studentId` failure: the student existence check is evaluated and
reported before the course check, deterministically. -/
theorem c8_student_check_first
    (dbA : InMem.Db) (bA : InMem.TestBody)
    (hpA : (InMem.falsyN bA.studentId || InMem.falsyN bA.courseId || InMem.falsyS bA.testName
            || InMem.falsyS bA.date || bA.mark.isNone || bA.outOf.isNone || bA.weight.isNone) = false)
    (hsA : dbA.students.any (fun s => s.id == bA.studentId.getD 0) = false)
    (_hcA : dbA.courses.any (fun c => c.id == bA.courseId.getD 0) = false)
    (dbB : Cnt.Db) (bB : Cnt.TestBody)
    (hpB : (bB.studentId.isNone || bB.courseId.isNone || InMem.falsyS bB.testName
            || InMem.falsyS bB.date || bB.mark.isNone || bB.outOf.isNone || bB.weight.isNone) = false)
    (hsB : dbB.students.any (fun s => s.id == bB.studentId.getD 0) = false)
    (_hcB : dbB.courses.any (fun c => c.id == bB.courseId.getD 0) = false)
    (dbC : Obj.Db) (bC : Obj.TestBody)
    (hpC : (InMem.falsyS bC.studentId || InMem.falsyS bC.courseId || InMem.falsyS bC.testName
            || InMem.falsyS bC.date || bC.mark.isNone || bC.outOf.isNone || bC.weight.isNone) = false)
    (hvC : (!Obj.isValidObjectId (bC.studentId.getD "")
            || !Obj.isValidObjectId (bC.courseId.getD "")) = false)
    (hsC : dbC.students.any (fun s => s.oid == bC.studentId.getD "") = false)
    (_hcC : dbC.courses.any (fun c => c.oid == bC.courseId.getD "") = false) :
    InMem.postTest dbA bA = (.err 400 "studentId is invalid!", dbA) ∧
    Cnt.postTest dbB bB = (.err 400 "studentId is invalid!", dbB) ∧
    Obj.postTest dbC bC = (.err 400 "studentId does not exist", dbC) := by
  refine ⟨?_, ?_, ?_⟩
  · simp [InMem.postTest, hpA, hsA]
  · simp [Cnt.postTest, hpB, hsB]
  · simp [Obj.postTest, hpC, hvC, hsC]

/-- C8 witness: a test naming student 99 and course 88 against empty
stores (and hex ids against the native-key variant) is rejected for the
student reference. -/
theorem c8_student_check_first_witness :
    InMem.postTest
      { teachers := [], courses := [], students := [], tests := [],
        nextTeachersId := 1, nextCoursesId := 1, nextStudentsId := 1, nextTestsId := 1 }
      ⟨some 99, some 88, some "Quiz", some "2024-01-01", some 8, some 10, some 1⟩
      = (.err 400 "studentId is invalid!",
         { teachers := [], courses := [], students := [], tests := [],
           nextTeachersId := 1, nextCoursesId := 1, nextStudentsId := 1, nextTestsId := 1 }) ∧
    Cnt.postTest
      { teachers := [], courses := [], students := [], tests := [], counters := [] }
      ⟨some 99, some 88, some "Quiz", some "2024-01-01", some 8, some 10, some 1⟩
      = (.err 400 "studentId is invalid!",
         { teachers := [], courses := [], students := [], tests := [], counters := [] }) ∧
    Obj.postTest
      { students := [], courses := [], tests := [], freshTestOid := "cccccccccccccccccccccccc" }
      ⟨some "aaaaaaaaaaaaaaaaaaaaaaaa", some "bbbbbbbbbbbbbbbbbbbbbbbb",
       some "Quiz", some "2024-01-01", some 8, some 10, some 1⟩
      = (.err 400 "studentId does not exist",
         { students := [], courses := [], tests := [], freshTestOid := "cccccccccccccccccccccccc" }) :=
  c8_student_check_first _ _ (by rfl) (by rfl) (by rfl) _ _ (by rfl) (by rfl) (by rfl)
    _ _ (by rfl) (by rfl) (by rfl) (by rfl)

/-- C6 (confirmed): a successful student update overwrites exactly the
supplied fields — the updated record is the `mergeStudent` of the prior
record and the body (present fields take the supplied value, absent
fields keep their prior value), the response carries that record, the
students collection changes only at the looked-up record, keeping its
length, and every other collection of the state is untouched; in both
the in-memory and the counter variant. -/
theorem c6_update_overwrites_only_supplied
    (dbA : InMem.Db) (s : String) (bA : InMem.StudentBody) (stA : InMem.Student)
    (hfA : dbA.students.find? (fun x => some x.id == jsNumber s) = some stA)
    (hneA : (InMem.falsyS bA.firstName && InMem.falsyS bA.lastName && InMem.falsyN bA.grade
             && InMem.falsyS bA.studentNumber) = false)
    (dbB : Cnt.Db) (sB : String) (bB : Cnt.StudentBody) (stB : Cnt.Student)
    (hneB : (bB.firstName.isNone && bB.lastName.isNone && bB.grade.isNone
             && bB.studentNumber.isNone && bB.homeroom.isNone) = false)
    (hfB : dbB.students.find? (fun x => some x.id == jsNumber sB) = some stB) :
    InMem.putStudent dbA s bA
      = (.ok 200 (InMem.mergeStudent stA bA),
         { dbA with students := (updateFirst (fun x => some x.id == jsNumber s)
                       (fun _ => InMem.mergeStudent stA bA) dbA.students) }) ∧
    (InMem.putStudent dbA s bA).2.students.length = dbA.students.length ∧
    (∀ x ∈ (InMem.putStudent dbA s bA).2.students,
      x = InMem.mergeStudent stA bA ∨ x ∈ dbA.students) ∧
    Cnt.putStudent dbB sB bB
      = (.ok 200 (Cnt.mergeStudent stB bB),
         { dbB with students := (updateFirst (fun x => some x.id == jsNumber sB)
                       (fun _ => Cnt.mergeStudent stB bB) dbB.students) }) ∧
    (Cnt.putStudent dbB sB bB).2.students.length = dbB.students.length ∧
    (∀ x ∈ (Cnt.putStudent dbB sB bB).2.students,
      x = Cnt.mergeStudent stB bB ∨ x ∈ dbB.students) := by
  have heqA : InMem.putStudent dbA s bA
      = (.ok 200 (InMem.mergeStudent stA bA),
         { dbA with students := (updateFirst (fun x => some x.id == jsNumber s)
                       (fun _ => InMem.mergeStudent stA bA) dbA.students) }) := by
    simp [InMem.putStudent, hfA, hneA, InMem.mergeStudent]
  have heqB : Cnt.putStudent dbB sB bB
      = (.ok 200 (Cnt.mergeStudent stB bB),
         { dbB with students := (updateFirst (fun x => some x.id == jsNumber sB)
                       (fun _ => Cnt.mergeStudent stB bB) dbB.students) }) := by
    simp [Cnt.putStudent, hfB, hneB, Cnt.mergeStudent]
  refine ⟨heqA, ?_, ?_, heqB, ?_, ?_⟩
  · rw [heqA]; exact updateFirst_length _ _ _
  · intro x hx
    rw [heqA] at hx
    exact updateFirst_const_mem _ _ _ x hx
  · rw [heqB]; exact updateFirst_length _ _ _
  · intro x hx
    rw [heqB] at hx
    exact updateFirst_const_mem _ _ _ x hx

/-- C6 witness: updating only `firstName` (and, for the counter variant,
`homeroom`) of a concrete student changes exactly those fields. -/
theorem c6_update_overwrites_only_supplied_witness :
    InMem.putStudent
      { teachers := [], courses := [],
        students := [⟨1, "Grace", "Hopper", 11, "S001", none⟩,
                     ⟨2, "Alan", "Turing", 12, "S002", none⟩],
        tests := [],
        nextTeachersId := 1, nextCoursesId := 1, nextStudentsId := 3, nextTestsId := 1 }
      "1" ⟨some "Amazing", none, none, none, none⟩
      = (.ok 200 ⟨1, "Amazing", "Hopper", 11, "S001", none⟩,
         { teachers := [], courses := [],
           students := [⟨1, "Amazing", "Hopper", 11, "S001", none⟩,
                        ⟨2, "Alan", "Turing", 12, "S002", none⟩],
           tests := [],
           nextTeachersId := 1, nextCoursesId := 1, nextStudentsId := 3, nextTestsId := 1 }) ∧
    Cnt.putStudent
      { teachers := [], courses := [],
        students := [⟨1, "Grace", "Hopper", 11, "S001", ""⟩],
        tests := [], counters := [("students", 1)] }
      "1" ⟨none, none, none, none, some "HR-2"⟩
      = (.ok 200 ⟨1, "Grace", "Hopper", 11, "S001", "HR-2"⟩,
         { teachers := [], courses := [],
           students := [⟨1, "Grace", "Hopper", 11, "S001", "HR-2"⟩],
           tests := [], counters := [("students", 1)] }) := by
  have h := c6_update_overwrites_only_supplied
    { teachers := [], courses := [],
      students := [⟨1, "Grace", "Hopper", 11, "S001", none⟩,
                   ⟨2, "Alan", "Turing", 12, "S002", none⟩],
      tests := [],
      nextTeachersId := 1, nextCoursesId := 1, nextStudentsId := 3, nextTestsId := 1 }
    "1" ⟨some "Amazing", none, none, none, none⟩ ⟨1, "Grace", "Hopper", 11, "S001", none⟩
    (by rfl) (by rfl)
    { teachers := [], courses := [],
      students := [⟨1, "Grace", "Hopper", 11, "S001", ""⟩],
      tests := [], counters := [("students", 1)] }
    "1" ⟨none, none, none, none, some "HR-2"⟩ ⟨1, "Grace", "Hopper", 11, "S001", ""⟩
    (by rfl) (by rfl)
  exact ⟨h.1, h.2.2.2.1⟩

theorem foldl_jadd_cnt (ts : List Cnt.Test) (h : ∀ t ∈ ts, t.outOf ≠ 0) :
    (ts.map (fun t => percent t.mark t.outOf)).foldl jadd (some 0)
      = some ((ts.map (fun t => 100 * t.mark / t.outOf)).sum) := by
  simpa using foldl_jadd_map (fun t => t.mark) (fun t => t.outOf) ts h 0

theorem foldl_jadd_obj (ts : List Obj.Test) (h : ∀ t ∈ ts, t.outOf ≠ 0) :
    (ts.map (fun t => percent t.mark t.outOf)).foldl jadd (some 0)
      = some ((ts.map (fun t => 100 * t.mark / t.outOf)).sum) := by
  simpa using foldl_jadd_map (fun t => t.mark) (fun t => t.outOf) ts h 0

theorem studentAverage_weight_irrelevant (db : Cnt.Db) (w : Cnt.Test → ℚ) (s : String) :
    Cnt.studentAverage { db with tests := db.tests.map (fun t => { t with weight := w t }) } s
      = Cnt.studentAverage db s := by
  have hfil := filter_map_pres (fun t : Cnt.Test => { t with weight := w t })
      (fun t => some t.studentId == jsNumber s) (fun a => rfl) db.tests
  cases hf : db.students.find? (fun x => some x.id == jsNumber s) with
  | none => simp [Cnt.studentAverage, hf]
  | some st =>
    by_cases hF : db.tests.filter (fun t => some t.studentId == jsNumber s) = []
    · simp [Cnt.studentAverage, hf, hfil, hF]
    · have hmap : (db.tests.filter (fun t => some t.studentId == jsNumber s)).map
          ((fun t => percent t.mark t.outOf) ∘ (fun t : Cnt.Test => { t with weight := w t }))
            = (db.tests.filter (fun t => some t.studentId == jsNumber s)).map
              (fun t => percent t.mark t.outOf) :=
        List.map_congr_left (fun a _ => rfl)
      simp [Cnt.studentAverage, hf, hfil, hF, List.map_map, hmap]

theorem courseAverage_weight_irrelevant (db : Obj.Db) (w : Obj.Test → ℚ) (i : String) :
    Obj.courseAverage { db with tests := db.tests.map (fun t => { t with weight := w t }) } i
      = Obj.courseAverage db i := by
  have hfil := filter_map_pres (fun t : Obj.Test => { t with weight := w t })
      (fun t => t.courseId == i) (fun a => rfl) db.tests
  by_cases hv : Obj.isValidObjectId i
  · cases hf : db.courses.find? (fun c => c.oid == i) with
    | none => simp [Obj.courseAverage, hv, hf]
    | some c =>
      by_cases hF : db.tests.filter (fun t => t.courseId == i) = []
      · simp [Obj.courseAverage, hv, hf, hfil, hF]
      · have hmap : (db.tests.filter (fun t => t.courseId == i)).map
            ((fun t => percent t.mark t.outOf) ∘ (fun t : Obj.Test => { t with weight := w t }))
              = (db.tests.filter (fun t => t.courseId == i)).map
                (fun t => percent t.mark t.outOf) :=
          List.map_congr_left (fun a _ => rfl)
        simp [Obj.courseAverage, hv, hf, hfil, hF, List.map_map, hmap]
  · simp [Obj.courseAverage, hv]

/-- C4 (confirmed): when the referenced student/course exists and at
least one test matches (and every matching `outOf` is non-zero, the
spec's standing assumption for the unguarded division), the returned
average is exactly the unweighted arithmetic mean of
`100 * mark / outOf` over the matching tests; the `weight` field is
never read (reassigning every weight arbitrarily leaves the answer
unchanged); and when the referenced student/course does not exist the
call fails 404 NotFound before any aggregation.  Shown for the counter
variant's student average and the native-key variant's course
average. -/
theorem c4_average_unweighted_mean
    (dbB : Cnt.Db) (s : String) (stB : Cnt.Student)
    (hfB : dbB.students.find? (fun x => some x.id == jsNumber s) = some stB)
    (hoB : ∀ t ∈ dbB.tests.filter (fun t => some t.studentId == jsNumber s), t.outOf ≠ 0)
    (hnB : dbB.tests.filter (fun t => some t.studentId == jsNumber s) ≠ [])
    (dbB' : Cnt.Db) (s' : String)
    (hmB : dbB'.students.find? (fun x => some x.id == jsNumber s') = none)
    (dbC : Obj.Db) (i : String) (crs : Obj.Course)
    (hvC : Obj.isValidObjectId i = true)
    (hfC : dbC.courses.find? (fun c => c.oid == i) = some crs)
    (hoC : ∀ t ∈ dbC.tests.filter (fun t => t.courseId == i), t.outOf ≠ 0)
    (hnC : dbC.tests.filter (fun t => t.courseId == i) ≠ [])
    (dbC' : Obj.Db) (i' : String)
    (hvC' : Obj.isValidObjectId i' = true)
    (hmC : dbC'.courses.find? (fun c => c.oid == i') = none) :
    Cnt.studentAverage dbB s
      = .ok 200 ⟨jsNumber s, (dbB.tests.filter (fun t => some t.studentId == jsNumber s)).length,
          .jnum (specMeanCnt (dbB.tests.filter (fun t => some t.studentId == jsNumber s)))⟩ ∧
    Cnt.studentAverage dbB' s' = .err 404 "Student not found" ∧
    (∀ (db : Cnt.Db) (w : Cnt.Test → ℚ) (u : String),
      Cnt.studentAverage { db with tests := db.tests.map (fun t => { t with weight := w t }) } u
        = Cnt.studentAverage db u) ∧
    Obj.courseAverage dbC i
      = .ok 200 ⟨i, (dbC.tests.filter (fun t => t.courseId == i)).length,
          .jnum (specMeanObj (dbC.tests.filter (fun t => t.courseId == i)))⟩ ∧
    Obj.courseAverage dbC' i' = .err 404 "Course not found" ∧
    (∀ (db : Obj.Db) (w : Obj.Test → ℚ) (u : String),
      Obj.courseAverage { db with tests := db.tests.map (fun t => { t with weight := w t }) } u
        = Obj.courseAverage db u) := by
  refine ⟨?_, ?_, studentAverage_weight_irrelevant, ?_, ?_, courseAverage_weight_irrelevant⟩
  · have hlenQ : ((dbB.tests.filter (fun t => some t.studentId == jsNumber s)).length : ℚ) ≠ 0 :=
      Nat.cast_ne_zero.mpr (fun h0 => hnB (List.length_eq_zero.mp h0))
    have hEmp : (dbB.tests.filter (fun t => some t.studentId == jsNumber s)).isEmpty = false := by
      simp [List.isEmpty_iff, hnB]
    simp [Cnt.studentAverage, hfB, hEmp, foldl_jadd_cnt _ hoB, jdiv, hlenQ, toVal, specMeanCnt]
  · simp [Cnt.studentAverage, hmB]
  · have hlenQ : ((dbC.tests.filter (fun t => t.courseId == i)).length : ℚ) ≠ 0 :=
      Nat.cast_ne_zero.mpr (fun h0 => hnC (List.length_eq_zero.mp h0))
    have hEmp : (dbC.tests.filter (fun t => t.courseId == i)).isEmpty = false := by
      simp [List.isEmpty_iff, hnC]
    simp [Obj.courseAverage, hvC, hfC, hEmp, foldl_jadd_obj _ hoC, jdiv, hlenQ, toVal, specMeanObj]
  · simp [Obj.courseAverage, hvC', hmC]

/-- C4 witness: student 1 of the counter variant with tests marked 8/10
and 10/10 averages to 90 (the mean of 80 and 100), as does course
"aaaaaaaaaaaaaaaaaaaaaaaa" of the native-key variant; a missing student
or course answers 404. -/
theorem c4_average_unweighted_mean_witness :
    Cnt.studentAverage
      { teachers := [], courses := [],
        students := [⟨1, "Grace", "Hopper", 11, "S001", ""⟩],
        tests := [⟨1, 1, 1, "T1", "2024-01-01", 8, 10, 1⟩,
                  ⟨2, 1, 1, "T2", "2024-02-01", 10, 10, 3⟩],
        counters := [("students", 1), ("tests", 2)] } "1"
      = .ok 200 ⟨some 1, 2, .jnum 90⟩ ∧
    Cnt.studentAverage
      { teachers := [], courses := [], students := [], tests := [], counters := [] } "7"
      = .err 404 "Student not found" ∧
    Obj.courseAverage
      { students := [],
        courses := [⟨"aaaaaaaaaaaaaaaaaaaaaaaa", "MTH1A", "Math", "bbbbbbbbbbbbbbbbbbbbbbbb",
                     "S1", "101", ""⟩],
        tests := [⟨"c1c1c1c1c1c1c1c1c1c1c1c1", "dddddddddddddddddddddddd",
                   "aaaaaaaaaaaaaaaaaaaaaaaa", "T1", "2024-01-01", 8, 10, 1⟩,
                  ⟨"c2c2c2c2c2c2c2c2c2c2c2c2", "dddddddddddddddddddddddd",
                   "aaaaaaaaaaaaaaaaaaaaaaaa", "T2", "2024-02-01", 10, 10, 3⟩],
        freshTestOid := "eeeeeeeeeeeeeeeeeeeeeeee" } "aaaaaaaaaaaaaaaaaaaaaaaa"
      = .ok 200 ⟨"aaaaaaaaaaaaaaaaaaaaaaaa", 2, .jnum 90⟩ := by
  have h := c4_average_unweighted_mean
    { teachers := [], courses := [],
      students := [⟨1, "Grace", "Hopper", 11, "S001", ""⟩],
      tests := [⟨1, 1, 1, "T1", "2024-01-01", 8, 10, 1⟩,
                ⟨2, 1, 1, "T2", "2024-02-01", 10, 10, 3⟩],
      counters := [("students", 1), ("tests", 2)] } "1" ⟨1, "Grace", "Hopper", 11, "S001", ""⟩
    (by rfl) (by decide) (by decide)
    { teachers := [], courses := [], students := [], tests := [], counters := [] } "7" (by rfl)
    { students := [],
      courses := [⟨"aaaaaaaaaaaaaaaaaaaaaaaa", "MTH1A", "Math", "bbbbbbbbbbbbbbbbbbbbbbbb",
                   "S1", "101", ""⟩],
      tests := [⟨"c1c1c1c1c1c1c1c1c1c1c1c1", "dddddddddddddddddddddddd",
                 "aaaaaaaaaaaaaaaaaaaaaaaa", "T1", "2024-01-01", 8, 10, 1⟩,
                ⟨"c2c2c2c2c2c2c2c2c2c2c2c2", "dddddddddddddddddddddddd",
                 "aaaaaaaaaaaaaaaaaaaaaaaa", "T2", "2024-02-01", 10, 10, 3⟩],
      freshTestOid := "eeeeeeeeeeeeeeeeeeeeeeee" } "aaaaaaaaaaaaaaaaaaaaaaaa"
    ⟨"aaaaaaaaaaaaaaaaaaaaaaaa", "MTH1A", "Math", "bbbbbbbbbbbbbbbbbbbbbbbb", "S1", "101", ""⟩
    (by decide) (by rfl) (by decide) (by decide)
    { students := [], courses := [], tests := [], freshTestOid := "ffffffffffffffffffffffff" }
    "bbbbbbbbbbbbbbbbbbbbbbbb" (by decide) (by rfl)
  refine ⟨?_, h.2.1, ?_⟩
  · refine h.1.trans ?_
    have hfil : List.filter (fun t => some t.studentId == jsNumber "1")
        ({ teachers := [], courses := [],
           students := [⟨1, "Grace", "Hopper", 11, "S001", ""⟩],
           tests := [⟨1, 1, 1, "T1", "2024-01-01", 8, 10, 1⟩,
                     ⟨2, 1, 1, "T2", "2024-02-01", 10, 10, 3⟩],
           counters := [("students", 1), ("tests", 2)] } : Cnt.Db).tests
        = [⟨1, 1, 1, "T1", "2024-01-01", 8, 10, 1⟩,
           ⟨2, 1, 1, "T2", "2024-02-01", 10, 10, 3⟩] := by decide
    have hid : jsNumber "1" = some 1 := by decide
    have hmean : specMeanCnt [(⟨1, 1, 1, "T1", "2024-01-01", 8, 10, 1⟩ : Cnt.Test),
        ⟨2, 1, 1, "T2", "2024-02-01", 10, 10, 3⟩] = 90 := by
      norm_num [specMeanCnt]
    rw [hfil, hid, hmean]
    rfl
  · refine h.2.2.2.1.trans ?_
    have hfil : List.filter (fun t => t.courseId == "aaaaaaaaaaaaaaaaaaaaaaaa")
        ({ students := [],
           courses := [⟨"aaaaaaaaaaaaaaaaaaaaaaaa", "MTH1A", "Math", "bbbbbbbbbbbbbbbbbbbbbbbb",
                        "S1", "101", ""⟩],
           tests := [⟨"c1c1c1c1c1c1c1c1c1c1c1c1", "dddddddddddddddddddddddd",
                      "aaaaaaaaaaaaaaaaaaaaaaaa", "T1", "2024-01-01", 8, 10, 1⟩,
                     ⟨"c2c2c2c2c2c2c2c2c2c2c2c2", "dddddddddddddddddddddddd",
                      "aaaaaaaaaaaaaaaaaaaaaaaa", "T2", "2024-02-01", 10, 10, 3⟩],
           freshTestOid := "eeeeeeeeeeeeeeeeeeeeeeee" } : Obj.Db).tests
        = [⟨"c1c1c1c1c1c1c1c1c1c1c1c1", "dddddddddddddddddddddddd",
            "aaaaaaaaaaaaaaaaaaaaaaaa", "T1", "2024-01-01", 8, 10, 1⟩,
           ⟨"c2c2c2c2c2c2c2c2c2c2c2c2", "dddddddddddddddddddddddd",
            "aaaaaaaaaaaaaaaaaaaaaaaa", "T2", "2024-02-01", 10, 10, 3⟩] := by decide
    have hmean : specMeanObj
        [(⟨"c1c1c1c1c1c1c1c1c1c1c1c1", "dddddddddddddddddddddddd",
           "aaaaaaaaaaaaaaaaaaaaaaaa", "T1", "2024-01-01", 8, 10, 1⟩ : Obj.Test),
         ⟨"c2c2c2c2c2c2c2c2c2c2c2c2", "dddddddddddddddddddddddd",
          "aaaaaaaaaaaaaaaaaaaaaaaa", "T2", "2024-02-01", 10, 10, 3⟩] = 90 := by
      norm_num [specMeanObj]
    rw [hfil, hmean]
    rfl

theorem inv_of_ids_eq (db' db : InMem.Db) (hids : InMem.teacherIds db' = InMem.teacherIds db)
    (hn : db'.nextTeachersId = db.nextTeachersId) (h : InMem.TeacherInv db) :
    InMem.TeacherInv db' := by
  obtain ⟨hlt, hpw⟩ := h
  refine ⟨fun i hi => ?_, ?_⟩
  · rw [hn]; exact hlt i (hids ▸ hi)
  · rw [hids]; exact hpw

theorem id_eq_of_beq (i : JNum) (a t : InMem.Teacher)
    (ha : (some a.id == i) = true) (ht : (some t.id == i) = true) : a.id = t.id := by
  have h1 : some a.id = i := eq_of_beq ha
  have h2 : some t.id = i := eq_of_beq ht
  exact Option.some.inj (h1.trans h2.symm)

theorem teacherStep_inv (db : InMem.Db) (op : InMem.TeacherOp) (h : InMem.TeacherInv db) :
    InMem.TeacherInv (InMem.teacherStep db op) := by
  obtain ⟨hlt, hpw⟩ := h
  cases op with
  | create b =>
    simp only [InMem.teacherStep, InMem.postTeacher]
    split
    · exact ⟨hlt, hpw⟩
    · refine ⟨?_, ?_⟩
      · intro i hi
        simp only [InMem.teacherIds, List.map_append, List.mem_append, List.map_cons,
          List.map_nil, List.mem_singleton] at hi
        rcases hi with hi | hi
        · exact lt_trans (hlt i hi) (lt_add_one _)
        · rw [hi]; exact lt_add_one _
      · simp only [InMem.teacherIds, List.map_append, List.map_cons, List.map_nil]
        refine List.pairwise_append.mpr ⟨hpw, List.pairwise_singleton _ _, ?_⟩
        intro a ha b hb
        rw [List.mem_singleton] at hb
        rw [hb]
        exact ne_of_lt (hlt a ha)
  | update s b =>
    simp only [InMem.teacherStep, InMem.putTeacher]
    split
    next _ => exact ⟨hlt, hpw⟩
    next t hfind =>
      split
      · exact ⟨hlt, hpw⟩
      · have hpt : (some t.id == jsNumber s) = true := by
          have hmem := List.find?_some hfind
          simpa using hmem
        refine inv_of_ids_eq _ db ?_ rfl ⟨hlt, hpw⟩
        show (updateFirst (fun x => some x.id == jsNumber s) _ db.teachers).map (fun x => x.id)
          = db.teachers.map (fun x => x.id)
        apply updateFirst_map
        intro a ha
        show t.id = a.id
        exact (id_eq_of_beq (jsNumber s) a t ha hpt).symm
  | del s =>
    simp only [InMem.teacherStep, InMem.deleteTeacher]
    split
    next _ => exact ⟨hlt, hpw⟩
    next t hfind =>
      have hsub : List.Sublist
          ((db.teachers.eraseP (fun x => some x.id == jsNumber s)).map (fun x => x.id))
          (db.teachers.map (fun x => x.id)) :=
        (List.eraseP_sublist _).map _
      exact ⟨fun i hi => hlt i (hsub.subset hi), hpw.sublist hsub⟩

theorem teacherRun_inv (db : InMem.Db) (ops : List InMem.TeacherOp)
    (h : InMem.TeacherInv db) : InMem.TeacherInv (InMem.teacherRun db ops) := by
  induction ops generalizing db with
  | nil => exact h
  | cons op ops ih => exact ih _ (teacherStep_inv db op h)

theorem counterGet_set (n : String) (v : ℚ) (c : Cnt.Counters) :
    Cnt.counterGet (Cnt.counterSet n v c) n = v := by
  induction c with
  | nil => simp [Cnt.counterSet, Cnt.counterGet]
  | cons p ps ih =>
    by_cases hp : p.1 = n <;> simp [Cnt.counterSet, Cnt.counterGet, hp, ih]

/-- C9 (confirmed): identifier allocation never hands out the same value
twice.  In the in-memory variant, from any state whose stored teacher
ids are pairwise distinct and below the `nextTeachersId` counter (as the
start-up `max + 1` initialisation arranges), every sequence of
create/update/delete requests preserves that invariant — so the ids in
the collection stay pairwise distinct after every operation; moreover a
successful create allocates exactly the current counter value, which is
not present in the collection, and bumps the counter.  In the counter
variant, `getNextId` is strictly increasing call over call, so it never
returns the same identifier twice. -/
theorem c9_id_allocation_unique (db : InMem.Db) (h : InMem.TeacherInv db) :
    (∀ ops : List InMem.TeacherOp, InMem.TeacherInv (InMem.teacherRun db ops)) ∧
    (∀ (b : InMem.TeacherBody) (t : InMem.Teacher) (db' : InMem.Db),
      InMem.postTeacher db b = (.ok 201 t, db') →
        t.id ∉ InMem.teacherIds db ∧ t.id = db.nextTeachersId
          ∧ db'.nextTeachersId = db.nextTeachersId + 1) ∧
    (∀ (n : String) (c : Cnt.Counters),
      (Cnt.getNextId n c).1 < (Cnt.getNextId n (Cnt.getNextId n c).2).1) := by
  refine ⟨fun ops => teacherRun_inv db ops h, ?_, ?_⟩
  · intro b t db' heq
    unfold InMem.postTeacher at heq
    split at heq
    · simp at heq
    · injection heq with h1 h2
      injection h1 with _ h1b
      refine ⟨?_, ?_, ?_⟩
      · rw [← h1b]
        intro hmem
        exact absurd (h.1 _ hmem) (lt_irrefl _)
      · rw [← h1b]
      · rw [← h2]
  · intro n c
    simp only [Cnt.getNextId]
    rw [counterGet_set]
    linarith

/-- C9 witness: from a state holding teachers 1 and 2 with counter 3,
a create followed by a delete preserves the id invariant, and the
counter allocator strictly increases from the empty counters
collection. -/
theorem c9_id_allocation_unique_witness :
    InMem.TeacherInv
      (InMem.teacherRun
        { teachers := [⟨1, "Ada", "Lovelace", "ada@school", "Math"⟩,
                       ⟨2, "Alan", "Turing", "alan@school", "CS"⟩],
          courses := [], students := [], tests := [],
          nextTeachersId := 3, nextCoursesId := 1, nextStudentsId := 1, nextTestsId := 1 }
        [InMem.TeacherOp.create ⟨some "Grace", some "Hopper", some "g@school", some "CS"⟩,
         InMem.TeacherOp.del "1"]) ∧
    (Cnt.getNextId "tests" []).1 < (Cnt.getNextId "tests" (Cnt.getNextId "tests" []).2).1 := by
  have h := c9_id_allocation_unique
    { teachers := [⟨1, "Ada", "Lovelace", "ada@school", "Math"⟩,
                   ⟨2, "Alan", "Turing", "alan@school", "CS"⟩],
      courses := [], students := [], tests := [],
      nextTeachersId := 3, nextCoursesId := 1, nextStudentsId := 1, nextTestsId := 1 }
    (by constructor <;> decide)
  exact ⟨h.1 _, h.2.2 "tests" []⟩
